import Mathlib

/-!
Shallow embedding of the mjpeg-grab capture utility.

The repository holds two near-duplicate variants of the same program:
`src/mjpeg-grab.c` (poll-based wait, per-iteration countdown, plain append)
and `src/v4l2grab.c` (select-based wait with a 1-second timeout, inner retry
loop, trim-to-EOI scan in `rawWrite`).  Device and file-system effects are
modelled by oracles: a run consumes a list of outcomes, one per underlying
system call, and the loop functions fold over that list.  Machine integers
are `Nat` with an explicit `% 2 ^ 32` where 32-bit overflow matters.
-/

/-- errno value for "interrupted system call", as on Linux. -/
def EINTR : Nat := 4

/-- errno value for "resource temporarily unavailable" (would-block), as on Linux. -/
def EAGAIN : Nat := 11

/-- Outcome of one underlying `v4l2_ioctl` call: return value `r` and, when
`r = -1`, the reported `errno`. -/
structure IoctlResult where
  r : Int
  errno : Nat
deriving DecidableEq

/-- The retry condition of `xioctl` in both sources:
`-1 == r && EINTR == errno`. -/
def isEINTR (o : IoctlResult) : Bool := o.r == -1 && o.errno == EINTR

/-- Embedding of `xioctl` (identical in both sources):
`do r = v4l2_ioctl(...); while (-1 == r && EINTR == errno); return r;`.
The list holds the outcomes of the successive underlying calls.  The result is
the returned outcome (`none` when the whole list is consumed by EINTR retries,
i.e. the loop is still running) together with the number of underlying calls
issued. -/
def xioctl : List IoctlResult → Option IoctlResult × Nat
  | [] => (none, 0)
  | o :: rest =>
    if isEINTR o then ((xioctl rest).1, (xioctl rest).2 + 1)
    else (some o, 1)

/-!
## The trim-to-EOI scan of `rawWrite` in src/v4l2grab.c (lines 80-89)

```
size_t size = length;
for (i=0; i<length; i++)
  if (img[i] == 0xff && img[i+1] == 0xd9) { size = i+2; break; }
```

The buffer is modelled as a function `img : Nat → Nat` so that the bytes the
scan can reach past the valid length are represented (the allocation gives
them no defined value; the model makes the dependence on them explicit).
-/

/-- The scan loop from index `i` with `fuel = length - i` iterations left:
returns `some (i + 2)` at the first index whose byte pair matches `FF D9`. -/
def rawWriteSizeAux (img : Nat → Nat) : Nat → Nat → Option Nat
  | _, 0 => none
  | i, fuel + 1 =>
    if img i = 0xff ∧ img (i + 1) = 0xd9 then some (i + 2)
    else rawWriteSizeAux img (i + 1) fuel

/-- The byte count `size` that `rawWrite` in src/v4l2grab.c passes to `fwrite`:
the scan result when the loop breaks, and `length` otherwise. -/
def rawWriteSize (img : Nat → Nat) (length : Nat) : Nat :=
  (rawWriteSizeAux img 0 length).getD length

/-- The indices the scan loop reads from `img`, starting at index `i` with
`fuel` iterations left.  `img[i]` is always read; `img[i+1]` is read only when
`img[i] == 0xff` (the `&&` in the source short-circuits). -/
def rawWriteReadsAux (img : Nat → Nat) : Nat → Nat → List Nat
  | _, 0 => []
  | i, fuel + 1 =>
    if img i = 0xff then
      if img (i + 1) = 0xd9 then [i, i + 1]
      else i :: (i + 1) :: rawWriteReadsAux img (i + 1) fuel
    else i :: rawWriteReadsAux img (i + 1) fuel

/-- All indices of `img` the `rawWrite` scan reads for a buffer of the given
valid length. -/
def rawWriteReads (img : Nat → Nat) (length : Nat) : List Nat :=
  rawWriteReadsAux img 0 length

/-!
## Buffer-size derivation in `deviceInit` (identical in both sources)

```
min = fmt.fmt.pix.width * 2;
if (fmt.fmt.pix.bytesperline < min) fmt.fmt.pix.bytesperline = min;
min = fmt.fmt.pix.bytesperline * fmt.fmt.pix.height;
if (fmt.fmt.pix.sizeimage < min) fmt.fmt.pix.sizeimage = min;
readInit(fmt.fmt.pix.sizeimage);
```

All fields are 32-bit unsigned; products reduce modulo `2 ^ 32`.
-/

/-- 32-bit unsigned truncation. -/
def u32 (x : Nat) : Nat := x % 2 ^ 32

/-- The pixel-format fields the derivation reads, as returned by the device
from the format-set call; each represents a 32-bit unsigned value. -/
structure PixFormat where
  width : Nat
  height : Nat
  bytesperline : Nat
  sizeimage : Nat
deriving DecidableEq

/-- `bytesperline` after the first defensive floor `bytesperline ≥ width * 2`. -/
def floorBpl (f : PixFormat) : Nat :=
  if f.bytesperline < u32 (f.width * 2) then u32 (f.width * 2) else f.bytesperline

/-- The frame-buffer size passed to `readInit`: `sizeimage` after the second
defensive floor `sizeimage ≥ bytesperline * height`. -/
def bufferSize (f : PixFormat) : Nat :=
  if f.sizeimage < u32 (floorBpl f * f.height) then u32 (floorBpl f * f.height)
  else f.sizeimage

/-!
## Frame read and capture loops
-/

/-- Outcome of one `v4l2_read` call: `ok n` for a return value `n ≥ 0`,
`err e` for return value `-1` with errno `e`. -/
inductive ReadOutcome where
  | ok (n : Nat)
  | err (e : Nat)
deriving DecidableEq

/-- What `frameRead` does with a read outcome: invoke `imageProcess` with some
byte count and return 1 (`wrote`), return 0 on EAGAIN (`again`), or call
`errno_exit` (`fatal`; the EIO case falls through to the default in both
sources). -/
inductive FrameResult where
  | wrote (len : Nat)
  | again
  | fatal (e : Nat)
deriving DecidableEq

/-- Final state of a terminated process in the mjpeg-grab variant: the exit
code, whether `deviceUninit` freed the buffer, whether `deviceClose` closed
the device, and the lengths of the appends performed on the output file, in
order. -/
structure ProcExit where
  code : Nat
  buffersFreed : Bool
  deviceClosed : Bool
  writes : List Nat
deriving DecidableEq

/-- Embedding of `errno_exit` (identical in both sources): print a diagnostic
and `exit(EXIT_FAILURE)` at once.  It performs no cleanup of its own, so the
buffer-freed and device-closed flags keep whatever values they had at the
call site. -/
def errno_exit (freed closed : Bool) (ws : List Nat) : ProcExit :=
  ⟨1, freed, closed, ws⟩

namespace MjpegGrab

/-- The timeout argument of the `poll` call in src/mjpeg-grab.c line 119:
`int timeout = -1;` (wait indefinitely). -/
def pollTimeout : Int := -1

/-- Embedding of `frameRead` in src/mjpeg-grab.c: on success the read return
value `n` is passed to `imageProcess` as the length; on `-1` the errno decides
(EAGAIN returns 0, everything else — EIO included — is `errno_exit`). -/
def frameRead (ro : ReadOutcome) : FrameResult :=
  match ro with
  | .ok n => .wrote n
  | .err e => if e = EAGAIN then .again else .fatal e

/-- Outcome of one `poll` call: `err e` for return value `-1` with errno `e`,
`timeout` for 0, `ready` for 1.  (With timeout `-1` a real poll cannot return
0, but the loop body has a path for it: the code only tests `r == -1` and
`r == 1`.) -/
inductive PollOutcome where
  | err (e : Nat)
  | timeout
  | ready
deriving DecidableEq

/-- Oracle entry for one iteration of the mjpeg-grab capture loop: the `poll`
outcome, the `v4l2_read` outcome (consulted only when poll returned 1), and
whether `fopen` of the output file in append mode succeeds. -/
structure Event where
  poll : PollOutcome
  readRes : ReadOutcome
  openOk : Bool
deriving DecidableEq

/-- Embedding of `mainLoop` in src/mjpeg-grab.c followed by the tail of
`main`:

```
for (; count > 0; count--) {
  ...poll...
  if (r == -1) errno_exit("poll");
  if (r == 1) frameRead();
}
deviceUninit(); deviceClose(); exit(EXIT_SUCCESS);
```

The countdown decrements on every iteration, whatever `frameRead` reported
(its return value is discarded).  A `wrote n` from `frameRead` appends `n` bytes to
the output (its `rawWrite` does no trimming in this variant); a failed output
`fopen` is `errno_exit("raw write")` with nothing yet released.  When the
countdown reaches 0, `main` continues: `deviceUninit` frees the buffer, then
`deviceClose` runs `if (-1 == v4l2_close(fd)) errno_exit("close");` — the
argument `closeOk` is the outcome of that `v4l2_close` call, so a close
failure is a fatal exit with the buffer already freed and the device not
closed, and only a successful close reaches `exit(EXIT_SUCCESS)`.  `none`
means the oracle ran out while the loop was still running. -/
def mainLoop (closeOk : Bool) : Nat → List Event → List Nat → Option ProcExit
  | 0, _, ws =>
    if closeOk then some ⟨0, true, true, ws⟩
    else some (errno_exit true false ws)
  | _ + 1, [], _ => none
  | count + 1, ev :: rest, ws =>
    match ev.poll with
    | .err _ => some (errno_exit false false ws)
    | .timeout => mainLoop closeOk count rest ws
    | .ready =>
      match frameRead ev.readRes with
      | .wrote n =>
        if ev.openOk then mainLoop closeOk count rest (ws ++ [n])
        else some (errno_exit false false ws)
      | .again => mainLoop closeOk count rest ws
      | .fatal _ => some (errno_exit false false ws)

end MjpegGrab

namespace V4l2Grab

/-- The `select` timeout in src/v4l2grab.c lines 151-152: `tv.tv_sec = 1;`. -/
def selectTimeoutSec : Nat := 1

/-- The `select` timeout in src/v4l2grab.c lines 151-152: `tv.tv_usec = 0;`. -/
def selectTimeoutUsec : Nat := 0

/-- Embedding of `frameRead` in src/v4l2grab.c: the return value of
`v4l2_read` is only compared against `-1`; on success `imageProcess` is called
with `buffers[0].length` — the full allocated capacity `cap` — not with the
byte count the read returned. -/
def frameRead (cap : Nat) (ro : ReadOutcome) : FrameResult :=
  match ro with
  | .ok _ => .wrote cap
  | .err e => if e = EAGAIN then .again else .fatal e

/-- Outcome of one `select` call: `err e` for `-1` with errno `e`, `timeout`
for 0, `ready` for 1. -/
inductive SelectOutcome where
  | err (e : Nat)
  | timeout
  | ready
deriving DecidableEq

/-- Oracle entry for one inner-loop iteration of the v4l2grab capture loop:
the `select` outcome, the `v4l2_read` outcome (consulted when select did not
fail), and whether `fopen` of the output file succeeds. -/
structure Event where
  sel : SelectOutcome
  readRes : ReadOutcome
  openOk : Bool
deriving DecidableEq

/-- Final state of the v4l2grab variant: success (count of frames appended),
an `errno_exit` path, or the `fprintf("select timeout"); exit(EXIT_FAILURE)`
branch of the timeout handling. -/
inductive RunExit where
  | success (writes : Nat)
  | fatal (writes : Nat)
  | selectTimeoutFatal (writes : Nat)
deriving DecidableEq

/-- `true` exactly on the `selectTimeoutFatal` exit. -/
def isSelectTimeoutFatal : RunExit → Bool
  | .selectTimeoutFatal _ => true
  | _ => false

/-- Embedding of `mainLoop` in src/v4l2grab.c:

```
while (count-- > 0) {
  for (;;) {
    ...select with 1s timeout...
    if (-1 == r) { if (EINTR == errno) continue; errno_exit("select"); }
    if (0 == r) {
      if (numberOfTimeouts <= 0) count++;
      else { fprintf(stderr, "select timeout\n"); exit(EXIT_FAILURE); }
    }
    if (frameRead()) break;
  }
}
```

The state is the current countdown value `count` (already decremented by the
outer `while` test), `nt` for `numberOfTimeouts` (initialised to 0 and never
assigned anywhere), and the number of frames appended so far.  On a successful
`frameRead` the inner loop breaks and the outer test runs again: `count = 0`
ends the loop (then `deviceUninit`, `deviceClose`, `exit(EXIT_SUCCESS)`),
otherwise the next iteration starts with `count - 1`.  A select timeout with
`nt ≤ 0` increments `count` and still falls through to `frameRead`. -/
def mainLoop (cap : Nat) : List Event → Nat → Nat → Nat → Option RunExit
  | [], _, _, _ => none
  | ev :: rest, count, nt, ws =>
    match ev.sel with
    | .err e =>
      if e = EINTR then mainLoop cap rest count nt ws
      else some (.fatal ws)
    | .timeout =>
      if nt = 0 then
        match frameRead cap ev.readRes with
        | .wrote _ =>
          if ev.openOk then
            if count + 1 = 0 then some (.success (ws + 1))
            else mainLoop cap rest (count + 1 - 1) nt (ws + 1)
          else some (.fatal ws)
        | .again => mainLoop cap rest (count + 1) nt ws
        | .fatal _ => some (.fatal ws)
      else some (.selectTimeoutFatal ws)
    | .ready =>
      match frameRead cap ev.readRes with
      | .wrote _ =>
        if ev.openOk then
          if count = 0 then some (.success (ws + 1))
          else mainLoop cap rest (count - 1) nt (ws + 1)
        else some (.fatal ws)
      | .again => mainLoop cap rest count nt ws
      | .fatal _ => some (.fatal ws)

/-- Entry into the capture loop with an initial countdown `count0`
(`count = 30; if (single_frame) count = 1;` in `main`): the outer `while`
test runs once before the first inner iteration. -/
def runFrom (cap count0 : Nat) (events : List Event) : Option RunExit :=
  if count0 = 0 then some (.success 0)
  else mainLoop cap events (count0 - 1) 0 0

/-- The whole capture loop as `main` invokes it: 30 frames, or 1 with the
`--single` flag. -/
def run (cap : Nat) (single : Bool) (events : List Event) : Option RunExit :=
  runFrom cap (if single then 1 else 30) events

end V4l2Grab


/-!
## Theorems
-/

/-- Claim C8: when the underlying device-control call reports
interrupted-by-signal exactly `k` times (here `k = pre.length`) and then
returns a non-interrupted result `o`, the `xioctl` wrapper issues exactly
`k + 1` underlying calls and returns that final result unchanged. -/
theorem xioctl_eintr_retries (pre : List IoctlResult) (o : IoctlResult)
    (rest : List IoctlResult) (hpre : ∀ x ∈ pre, isEINTR x = true)
    (ho : isEINTR o = false) :
    xioctl (pre ++ o :: rest) = (some o, pre.length + 1) := by
  induction pre with
  | nil => simp [xioctl, ho]
  | cons a as ih =>
    have ha : isEINTR a = true := hpre a (by simp)
    have ih2 := ih (fun x hx => hpre x (by simp [hx]))
    simp [xioctl, ha, ih2]

/-- Witness for C8: two EINTR outcomes followed by a success with return
value 0: three underlying calls, and the success comes back unchanged. -/
theorem xioctl_eintr_retries_witness :
    xioctl ([⟨-1, 4⟩, ⟨-1, 4⟩] ++ ⟨0, 0⟩ :: []) = (some ⟨0, 0⟩, 3) :=
  xioctl_eintr_retries [⟨-1, 4⟩, ⟨-1, 4⟩] ⟨0, 0⟩ [] (by decide) (by decide)

/-- Claim C10: the `xioctl` wrapper terminates if and only if the underlying
call eventually reports something other than interrupted-by-signal.  Over any
finite prefix of outcomes: the wrapper has not returned exactly when every
outcome so far was EINTR, and in that case it has already issued one call per
outcome, so its retry count grows without bound on an all-EINTR sequence. -/
theorem xioctl_terminates_iff (outs : List IoctlResult) :
    ((xioctl outs).1 = none ↔ ∀ o ∈ outs, isEINTR o = true) ∧
      ((∀ o ∈ outs, isEINTR o = true) → (xioctl outs).2 = outs.length) := by
  induction outs with
  | nil => simp [xioctl]
  | cons a as ih =>
    by_cases ha : isEINTR a = true
    · constructor
      · simpa [xioctl, ha] using ih.1
      · intro h
        have := ih.2 (fun o ho => h o (by simp [ho]))
        simp [xioctl, ha, this]
    · constructor
      · constructor
        · intro h
          simp [xioctl, ha] at h
        · intro h
          exact absurd (h a (by simp)) ha
      · intro h
        exact absurd (h a (by simp)) ha

/-- Witness for C10: a single EINTR outcome leaves the wrapper still running
after one issued call. -/
theorem xioctl_terminates_iff_witness :
    (xioctl [⟨-1, 4⟩]).1 = none ∧ (xioctl [⟨-1, 4⟩]).2 = 1 := by
  have h := xioctl_terminates_iff [⟨-1, 4⟩]
  exact ⟨h.1.2 (by decide), h.2 (by decide)⟩

/-- A buffer whose single valid byte is `FF` and whose byte just past the
valid length — at index 1 — happens to hold `D9`. -/
def overreadImg : Nat → Nat :=
  fun j => if j = 0 then 0xff else if j = 1 then 0xd9 else 0

/-- Claim C4, evaluated at the failing input: for valid length `n = 1` the
payload `[FF]` holds no `FF D9` pair, so the claim says the effective length
stays 1; the scan instead pairs the last valid byte with the byte at index 1
— past the valid length — and truncates to 2. -/
theorem rawWriteSize_overread_eval : rawWriteSize overreadImg 1 = 2 := rfl

/-- Claim C5, evaluated at the failing input: for a buffer of valid length 1
whose bytes all read `FF`, the scan reads index 1 = the valid length, so the
scan does inspect an index that is not strictly below the valid length. -/
theorem rawWriteReads_at_valid_length :
    1 ∈ rawWriteReads (fun _ => 0xff) 1 := by decide

/-- Counterexample for claim C2: in the v4l2grab variant a read that succeeds
with byte count `n = 3` into a buffer of capacity 5 hands 5 — the allocated
capacity, not the 3 bytes the read produced — to the image-processing path. -/
theorem frameRead_capacity_passed :
    V4l2Grab.frameRead 5 (.ok 3) = .wrote 5 ∧ 3 < 5 := by decide

/-- Claim C2 (amended): the mjpeg-grab variant derives the frame length from
the read return value `n`; the v4l2grab variant passes the allocated capacity
`cap` regardless of `n` (there the trim-to-EOI scan, not `n`, bounds the
bytes written). -/
theorem frameRead_effective_length (cap n : Nat) :
    MjpegGrab.frameRead (.ok n) = .wrote n ∧
      V4l2Grab.frameRead cap (.ok n) = .wrote cap :=
  ⟨rfl, rfl⟩

/-- Counterexample for claim C3: in the mjpeg-grab variant, with frame count
2 and an oracle offering a would-block read followed by two successful reads,
the run exits successfully having appended only one frame — the would-block
iteration consumed one of the two frame slots (the third oracle entry is
never reached). -/
theorem mjpeg_wouldblock_consumes_slot :
    MjpegGrab.mainLoop true 2
        [⟨.ready, .err EAGAIN, true⟩, ⟨.ready, .ok 7, true⟩,
          ⟨.ready, .ok 8, true⟩] [] =
      some ⟨0, true, true, [7]⟩ := rfl

/-- Claim C3 (amended): in the v4l2grab variant a would-block read leaves the
remaining-frame counter unchanged and the loop re-enters the readability
wait; in the mjpeg-grab variant a would-block iteration decrements the
counter exactly as any other iteration does. -/
theorem wouldblock_counter_effect :
    (∀ (cap : Nat) (rest : List V4l2Grab.Event) (count nt ws : Nat) (b : Bool),
        V4l2Grab.mainLoop cap (⟨.ready, .err EAGAIN, b⟩ :: rest) count nt ws =
          V4l2Grab.mainLoop cap rest count nt ws) ∧
      (∀ (closeOk : Bool) (rest : List MjpegGrab.Event) (count : Nat)
          (ws : List Nat) (b : Bool),
        MjpegGrab.mainLoop closeOk (count + 1)
            (⟨.ready, .err EAGAIN, b⟩ :: rest) ws =
          MjpegGrab.mainLoop closeOk count rest ws) :=
  ⟨fun _ _ _ _ _ _ => rfl, fun _ _ _ _ _ => rfl⟩

/-- Helper: through any run of the mjpeg-grab capture loop, the append count
grows by at most the countdown, whatever each iteration produced and however
the closing `v4l2_close` fares. -/
theorem mjpeg_writes_le_aux (closeOk : Bool) (events : List MjpegGrab.Event) :
    ∀ (count : Nat) (ws : List Nat) (p : ProcExit),
      MjpegGrab.mainLoop closeOk count events ws = some p → p.code = 0 →
        p.writes.length ≤ ws.length + count := by
  induction events with
  | nil =>
    intro count ws p h h0
    cases count with
    | zero =>
      cases closeOk with
      | true =>
        simp only [MjpegGrab.mainLoop, if_true, Option.some.injEq] at h
        subst h
        simp
      | false =>
        simp only [MjpegGrab.mainLoop, Bool.false_eq_true, if_false,
          Option.some.injEq] at h
        subst h
        simp [errno_exit] at h0
    | succ c => simp [MjpegGrab.mainLoop] at h
  | cons ev rest ih =>
    intro count ws p h h0
    cases count with
    | zero =>
      cases closeOk with
      | true =>
        simp only [MjpegGrab.mainLoop, if_true, Option.some.injEq] at h
        subst h
        simp
      | false =>
        simp only [MjpegGrab.mainLoop, Bool.false_eq_true, if_false,
          Option.some.injEq] at h
        subst h
        simp [errno_exit] at h0
    | succ c =>
      obtain ⟨pl, rr, op⟩ := ev
      cases pl with
      | err e =>
        simp only [MjpegGrab.mainLoop, Option.some.injEq] at h
        subst h
        simp [errno_exit] at h0
      | timeout =>
        simp only [MjpegGrab.mainLoop] at h
        have := ih c ws p h h0
        omega
      | ready =>
        cases rr with
        | ok n =>
          cases op with
          | true =>
            simp only [MjpegGrab.mainLoop, MjpegGrab.frameRead, if_true] at h
            have := ih c (ws ++ [n]) p h h0
            simp only [List.length_append, List.length_singleton] at this
            omega
          | false =>
            simp only [MjpegGrab.mainLoop, MjpegGrab.frameRead,
              Bool.false_eq_true, if_false, Option.some.injEq] at h
            subst h
            simp [errno_exit] at h0
        | err e =>
          by_cases he : e = EAGAIN
          · simp only [MjpegGrab.mainLoop, MjpegGrab.frameRead, he, if_pos rfl] at h
            have := ih c ws p h h0
            omega
          · simp only [MjpegGrab.mainLoop, MjpegGrab.frameRead, if_neg he,
              Option.some.injEq] at h
            subst h
            simp [errno_exit] at h0

/-- Claim C1 (amended): every successful run (exit status 0) of the
mjpeg-grab variant with configured frame count `N` performs at most `N`
append operations, in capture order; an iteration whose read would-block (or
whose poll did not return 1) consumes a frame slot without appending, so the
output may end up with fewer than `N` frame blocks. -/
theorem mjpeg_success_writes_le (closeOk : Bool) (count : Nat)
    (events : List MjpegGrab.Event) (p : ProcExit)
    (h : MjpegGrab.mainLoop closeOk count events [] = some p)
    (h0 : p.code = 0) : p.writes.length ≤ count := by
  have := mjpeg_writes_le_aux closeOk events count [] p h h0
  simpa using this

/-- Witness for C1 (amended): a run with frame count 2 and two successful
reads appends both frames, and 2 ≤ 2. -/
theorem mjpeg_success_writes_le_witness :
    (ProcExit.mk 0 true true [5, 6]).writes.length ≤ 2 :=
  mjpeg_success_writes_le true 2
    [⟨.ready, .ok 5, true⟩, ⟨.ready, .ok 6, true⟩]
    (ProcExit.mk 0 true true [5, 6]) rfl rfl

/-- Counterexample for claim C1: in the mjpeg-grab variant a run with frame
count 1 whose only iteration sees a would-block read exits successfully with
an empty output — strictly fewer than 1 frame block. -/
theorem mjpeg_wouldblock_success_short :
    MjpegGrab.mainLoop true 1 [⟨.ready, .err EAGAIN, true⟩] [] =
      some ⟨0, true, true, []⟩ ∧ ([] : List Nat).length < 1 :=
  ⟨rfl, by decide⟩

/-- Helper: every terminated run of the mjpeg-grab capture loop exited in one
of exactly three shapes — success after full teardown (only when the closing
`v4l2_close` succeeds), a fatal exit from inside the loop with nothing
released, or a fatal exit from `deviceClose` with the buffer already freed
but the device not closed (only when the close fails). -/
theorem mjpeg_teardown_aux (closeOk : Bool) (events : List MjpegGrab.Event) :
    ∀ (count : Nat) (ws : List Nat) (p : ProcExit),
      MjpegGrab.mainLoop closeOk count events ws = some p →
        (p.code = 0 ∧ p.buffersFreed = true ∧ p.deviceClosed = true ∧
            closeOk = true) ∨
          (p.code = 1 ∧ p.buffersFreed = false ∧ p.deviceClosed = false) ∨
          (p.code = 1 ∧ p.buffersFreed = true ∧ p.deviceClosed = false ∧
            closeOk = false) := by
  induction events with
  | nil =>
    intro count ws p h
    cases count with
    | zero =>
      cases closeOk with
      | true =>
        simp [MjpegGrab.mainLoop] at h
        subst h
        simp
      | false =>
        simp [MjpegGrab.mainLoop, errno_exit] at h
        subst h
        simp
    | succ c => simp [MjpegGrab.mainLoop] at h
  | cons ev rest ih =>
    intro count ws p h
    cases count with
    | zero =>
      cases closeOk with
      | true =>
        simp [MjpegGrab.mainLoop] at h
        subst h
        simp
      | false =>
        simp [MjpegGrab.mainLoop, errno_exit] at h
        subst h
        simp
    | succ c =>
      obtain ⟨pl, rr, op⟩ := ev
      cases pl with
      | err e =>
        simp only [MjpegGrab.mainLoop, Option.some.injEq] at h
        subst h
        simp [errno_exit]
      | timeout =>
        simp only [MjpegGrab.mainLoop] at h
        exact ih c ws p h
      | ready =>
        cases rr with
        | ok n =>
          cases op with
          | true =>
            simp only [MjpegGrab.mainLoop, MjpegGrab.frameRead, if_true] at h
            exact ih c (ws ++ [n]) p h
          | false =>
            simp only [MjpegGrab.mainLoop, MjpegGrab.frameRead,
              Bool.false_eq_true, if_false, Option.some.injEq] at h
            subst h
            simp [errno_exit]
        | err e =>
          by_cases he : e = EAGAIN
          · simp only [MjpegGrab.mainLoop, MjpegGrab.frameRead, he,
              if_pos rfl] at h
            exact ih c ws p h
          · simp only [MjpegGrab.mainLoop, MjpegGrab.frameRead, if_neg he,
              Option.some.injEq] at h
            subst h
            simp [errno_exit]

/-- Claim C6 (amended): teardown begins only when the capture loop completes.
A run that exits with status 0 has freed the `FrameBuffer` and closed the
`DeviceHandle` (this needs the closing `v4l2_close` to succeed); a fatal exit
from inside the loop (status 1, via `errno_exit`) releases nothing; and when
the loop completes but `v4l2_close` fails, `deviceClose` exits fatally with
the buffer already freed and the device not closed.  In particular not every
terminating execution closes the handle or frees the buffer. -/
theorem mjpeg_teardown_paths (closeOk : Bool) (count : Nat)
    (events : List MjpegGrab.Event) (ws : List Nat) (p : ProcExit)
    (h : MjpegGrab.mainLoop closeOk count events ws = some p) :
    (p.code = 0 ∧ p.buffersFreed = true ∧ p.deviceClosed = true ∧
        closeOk = true) ∨
      (p.code = 1 ∧ p.buffersFreed = false ∧ p.deviceClosed = false) ∨
      (p.code = 1 ∧ p.buffersFreed = true ∧ p.deviceClosed = false ∧
        closeOk = false) :=
  mjpeg_teardown_aux closeOk events count ws p h

/-- Witness for C6 (amended): a run whose loop completes but whose
`v4l2_close` fails exits fatally with the buffer freed and the device still
open — the third shape. -/
theorem mjpeg_teardown_paths_witness :
    ((ProcExit.mk 1 true false []).code = 0 ∧
        (ProcExit.mk 1 true false []).buffersFreed = true ∧
        (ProcExit.mk 1 true false []).deviceClosed = true ∧
        (false : Bool) = true) ∨
      ((ProcExit.mk 1 true false []).code = 1 ∧
        (ProcExit.mk 1 true false []).buffersFreed = false ∧
        (ProcExit.mk 1 true false []).deviceClosed = false) ∨
      ((ProcExit.mk 1 true false []).code = 1 ∧
        (ProcExit.mk 1 true false []).buffersFreed = true ∧
        (ProcExit.mk 1 true false []).deviceClosed = false ∧
        (false : Bool) = false) :=
  mjpeg_teardown_paths false 0 [] [] (ProcExit.mk 1 true false []) rfl

/-- Counterexample for claim C6: a capture session whose poll fails (errno
EIO = 5) terminates with exit status 1, the buffer never freed and the device
never closed — `errno_exit` exits without running any teardown. -/
theorem mjpeg_fatal_skips_teardown :
    MjpegGrab.mainLoop true 1 [⟨.err 5, .ok 0, true⟩] [] =
      some ⟨1, false, false, []⟩ := rfl

/-- Counterexample for claim C7: a device-reported format of width 1, height
2, bytesperline 2^31, sizeimage 0 passes both floors unchanged — the product
`bytesperline * height` wraps to 0 modulo 2^32 — so the allocated size is 0,
strictly below 2 · width · height = 4. -/
theorem bufferSize_wrap_below_2wh :
    bufferSize ⟨1, 2, 2 ^ 31, 0⟩ < u32 (2 * 1 * 2) := by decide

/-- Claim C7 (amended): the frame-buffer size is `sizeimage` after the floors
`bytesperline ≥ 2 · width` and `sizeimage ≥ bytesperline · height` in 32-bit
unsigned arithmetic; provided those products do not wrap modulo 2^32, the
result is at least `max(device sizeimage, 2 · width · height)`. -/
theorem bufferSize_lower_bound (f : PixFormat)
    (h1 : f.width * 2 < 2 ^ 32)
    (h2 : max f.bytesperline (f.width * 2) * f.height < 2 ^ 32) :
    f.sizeimage ≤ bufferSize f ∧ 2 * f.width * f.height ≤ bufferSize f := by
  have hbpl : floorBpl f = max f.bytesperline (f.width * 2) := by
    unfold floorBpl u32
    rw [Nat.mod_eq_of_lt h1]
    rcases Nat.lt_or_ge f.bytesperline (f.width * 2) with h | h
    · simp [h, Nat.max_eq_right (Nat.le_of_lt h)]
    · simp [Nat.not_lt.mpr h, Nat.max_eq_left h]
  have hm : floorBpl f * f.height < 2 ^ 32 := by rw [hbpl]; exact h2
  have hmod : u32 (floorBpl f * f.height) = floorBpl f * f.height :=
    Nat.mod_eq_of_lt hm
  have hw2 : 2 * f.width ≤ floorBpl f := by
    rw [hbpl, Nat.mul_comm]
    exact le_max_right _ _
  have h2wh : 2 * f.width * f.height ≤ floorBpl f * f.height :=
    Nat.mul_le_mul hw2 (Nat.le_refl _)
  unfold bufferSize
  rw [hmod]
  split_ifs with hs
  · exact ⟨Nat.le_of_lt hs, h2wh⟩
  · exact ⟨Nat.le_refl _, Nat.le_trans h2wh (Nat.not_lt.mp hs)⟩

/-- Witness for C7 (amended): width 4, height 3, bytesperline 0, sizeimage
10: the floors give bytesperline 8 and size 24 ≥ max(10, 24), with no
wraparound. -/
theorem bufferSize_lower_bound_witness :
    (10 : Nat) ≤ bufferSize ⟨4, 3, 0, 10⟩ ∧
      2 * 4 * 3 ≤ bufferSize ⟨4, 3, 0, 10⟩ :=
  bufferSize_lower_bound ⟨4, 3, 0, 10⟩ (by decide) (by decide)

/-- Helper: with `numberOfTimeouts` at its only value 0, no run of the
v4l2grab capture loop can reach the `"select timeout"` failure exit. -/
theorem v4l2_no_timeout_fatal_aux (events : List V4l2Grab.Event) :
    ∀ (cap count ws : Nat) (r : V4l2Grab.RunExit),
      V4l2Grab.mainLoop cap events count 0 ws = some r →
        V4l2Grab.isSelectTimeoutFatal r = false := by
  induction events with
  | nil =>
    intro cap count ws r h
    simp [V4l2Grab.mainLoop] at h
  | cons ev rest ih =>
    intro cap count ws r h
    obtain ⟨sel, rr, op⟩ := ev
    cases sel with
    | err e =>
      by_cases he : e = EINTR
      · simp only [V4l2Grab.mainLoop, he, if_pos rfl] at h
        exact ih cap count ws r h
      · simp only [V4l2Grab.mainLoop, if_neg he, Option.some.injEq] at h
        subst h
        rfl
    | timeout =>
      cases rr with
      | ok n =>
        cases op with
        | true =>
          simp [V4l2Grab.mainLoop, V4l2Grab.frameRead] at h
          exact ih cap count (ws + 1) r h
        | false =>
          simp [V4l2Grab.mainLoop, V4l2Grab.frameRead] at h
          subst h
          rfl
      | err e =>
        by_cases he : e = EAGAIN
        · simp [V4l2Grab.mainLoop, V4l2Grab.frameRead, he] at h
          exact ih cap (count + 1) ws r h
        · simp [V4l2Grab.mainLoop, V4l2Grab.frameRead, he] at h
          subst h
          rfl
    | ready =>
      cases rr with
      | ok n =>
        cases op with
        | true =>
          cases count with
          | zero =>
            simp [V4l2Grab.mainLoop, V4l2Grab.frameRead] at h
            subst h
            rfl
          | succ c =>
            simp [V4l2Grab.mainLoop, V4l2Grab.frameRead] at h
            exact ih cap c (ws + 1) r h
        | false =>
          simp [V4l2Grab.mainLoop, V4l2Grab.frameRead] at h
          subst h
          rfl
      | err e =>
        by_cases he : e = EAGAIN
        · simp [V4l2Grab.mainLoop, V4l2Grab.frameRead, he] at h
          exact ih cap count ws r h
        · simp [V4l2Grab.mainLoop, V4l2Grab.frameRead, he] at h
          subst h
          rfl

/-- Counterexample for claim C9: the v4l2grab readability wait is a `select`
with a 1-second timeout, and a timeout can occur: with the `--single` flag
(frame count 1), a run whose first wait times out increments the countdown
and goes on to capture — and append — 2 frames before exiting successfully,
which an unbounded wait could never produce. -/
theorem v4l2_select_has_timeout :
    V4l2Grab.selectTimeoutSec = 1 ∧
      V4l2Grab.run 0 true
          [⟨.timeout, .err EAGAIN, true⟩, ⟨.ready, .ok 0, true⟩,
            ⟨.ready, .ok 0, true⟩] =
        some (V4l2Grab.RunExit.success 2) :=
  ⟨rfl, rfl⟩

/-- Claim C9 (amended): the mjpeg-grab variant waits with poll timeout `-1`
(unbounded); the v4l2grab variant waits with a 1-second select timeout, but
because `numberOfTimeouts` is 0 and never assigned, the `"select timeout"`
failure branch is unreachable: no terminated run of the capture loop ends in
a failure state caused by a timeout of the readability wait. -/
theorem wait_timeout_behavior :
    MjpegGrab.pollTimeout = -1 ∧ V4l2Grab.selectTimeoutSec = 1 ∧
      ∀ (cap : Nat) (events : List V4l2Grab.Event) (count ws : Nat)
        (r : V4l2Grab.RunExit),
        V4l2Grab.mainLoop cap events count 0 ws = some r →
          V4l2Grab.isSelectTimeoutFatal r = false :=
  ⟨rfl, rfl, fun cap events count ws r h =>
    v4l2_no_timeout_fatal_aux events cap count ws r h⟩

/-- Witness for C9 (amended): a one-event run that captures its frame at
once terminates successfully, not through the timeout failure branch. -/
theorem wait_timeout_behavior_witness :
    V4l2Grab.isSelectTimeoutFatal (V4l2Grab.RunExit.success 1) = false :=
  wait_timeout_behavior.2.2 0 [⟨.ready, .ok 0, true⟩] 0 0
    (V4l2Grab.RunExit.success 1) rfl
